import Mathlib

/-!
Shallow embedding of `src/OOP_1.py`, a small bank-account class hierarchy
(base account, savings, current/overdraft, fixed deposit) together with a
`Bank` registry that maps account numbers to accounts and performs
withdraw-then-deposit transfers.

Modelling choices:
* Money amounts and balances are embedded as `ℚ` (the Python source uses
  floats; the spec describes exact decimal arithmetic).
* Time is explicit: `datetime.now()` becomes a `now : ℚ` parameter of
  `withdraw` measured in days, and `creation_date`/`lock_period_days` are
  rational day counts, so `current_date < creation_date + timedelta(days=lock)`
  becomes `now < creation_date + lock_period_days`.
* The four Python classes become one structure with a sum-type `kind`
  carrying the variant-specific fields; dynamic dispatch of `withdraw`
  becomes a `match` on the kind.
* Python's `ValueError` messages become the constructors of `BankError`;
  fallible methods return `Except BankError _`.
* The Python `Bank` mutates account objects held in a dict.  The dict is
  embedded as an association list; in-place mutation of the object stored
  under a key becomes `updateAcc`, and `transfer_funds` re-reads the
  destination after updating the source, which reproduces Python's aliasing
  when the two account numbers coincide.
-/

namespace OOP1

/-- Error taxonomy: one constructor per distinct `ValueError` message raised
in `OOP_1.py`. -/
inductive BankError where
  | InvalidAmount        -- "Deposit/Withdrawal amount must be positive."
  | InsufficientFunds    -- "Insufficient funds."
  | OverdraftExceeded    -- "Exceeds overdraft limit."
  | LockPeriodActive     -- "Withdrawal not allowed before lock-in period ends."
  | DuplicateAccount     -- "Account with this number already exists."
  | AccountNotFound      -- "One or both accounts not found."
deriving DecidableEq, Repr

/-- The variant-specific data of the four account classes. -/
inductive AccountKind where
  | basic
  | savings (interest_rate : ℚ)
  | current (overdraft_limit : ℚ)
  | fixedDeposit (lock_period_days : ℚ) (creation_date : ℚ)
deriving DecidableEq, Repr

/-- An account: the shared fields of `BankAccount.__init__` plus the
variant tag. -/
structure BankAccount where
  account_number : String
  account_holder : String
  balance : ℚ
  kind : AccountKind
deriving DecidableEq, Repr

/-- `BankAccount.deposit` (lines 11-15): not overridden by any subclass. -/
def deposit (a : BankAccount) (amount : ℚ) : Except BankError BankAccount :=
  if amount ≤ 0 then .error .InvalidAmount
  else .ok { a with balance := a.balance + amount }

/-- `BankAccount.withdraw` (lines 17-23): the base rule, inherited by
`SavingsAccount` and delegated to by `FixedDepositAccount` after unlock. -/
def withdrawBasic (a : BankAccount) (amount : ℚ) : Except BankError BankAccount :=
  if amount ≤ 0 then .error .InvalidAmount
  else if amount > a.balance then .error .InsufficientFunds
  else .ok { a with balance := a.balance - amount }

/-- Dynamic dispatch of `withdraw`: the base rule for basic and savings
accounts, `CurrentAccount.withdraw` (lines 56-62) for current accounts,
`FixedDepositAccount.withdraw` (lines 76-80) for fixed deposits.  `now` is
the value of `datetime.now()` at the call, in days. -/
def withdraw (now : ℚ) (a : BankAccount) (amount : ℚ) : Except BankError BankAccount :=
  match a.kind with
  | .basic => withdrawBasic a amount
  | .savings _ => withdrawBasic a amount
  | .current overdraft_limit =>
      if amount ≤ 0 then .error .InvalidAmount
      else if amount > a.balance + overdraft_limit then .error .OverdraftExceeded
      else .ok { a with balance := a.balance - amount }
  | .fixedDeposit lock_period_days creation_date =>
      if now < creation_date + lock_period_days then .error .LockPeriodActive
      else withdrawBasic a amount

/-- `SavingsAccount.apply_interest` (lines 40-43).  The method exists only
on savings accounts; on other kinds the model is the identity (claims about
it carry a `kind = savings r` hypothesis). -/
def apply_interest (a : BankAccount) : BankAccount :=
  match a.kind with
  | .savings interest_rate =>
      { a with balance := a.balance + a.balance * (interest_rate / 100) }
  | _ => a

/-- The `Bank`: `self.accounts` is a dict from account number to account,
embedded as an association list in insertion order. -/
structure Bank where
  accounts : List (String × BankAccount)
deriving DecidableEq, Repr

/-- `Bank.__init__` (lines 90-91): the empty registry. -/
def Bank.empty : Bank := ⟨[]⟩

/-- Dict lookup `self.accounts.get(account_number, None)`. -/
def lookupAcc : List (String × BankAccount) → String → Option BankAccount
  | [], _ => none
  | (k, v) :: rest, id => if k = id then some v else lookupAcc rest id

/-- `Bank.get_account` (lines 98-99). -/
def Bank.get_account (b : Bank) (id : String) : Option BankAccount :=
  lookupAcc b.accounts id

/-- `Bank.add_account` (lines 93-96): duplicate check, then dict insertion
(appended, matching dict insertion order). -/
def Bank.add_account (b : Bank) (a : BankAccount) : Except BankError Bank :=
  match b.get_account a.account_number with
  | some _ => .error .DuplicateAccount
  | none => .ok ⟨b.accounts ++ [(a.account_number, a)]⟩

/-- In-place mutation of the account object stored under `id`: every entry
whose key equals `id` is replaced (with unique keys this is the one entry). -/
def updateAcc : List (String × BankAccount) → String → BankAccount → List (String × BankAccount)
  | [], _, _ => []
  | (k, v) :: rest, id, a =>
      if k = id then (k, a) :: updateAcc rest id a
      else (k, v) :: updateAcc rest id a

/-- `Bank.transfer_funds` (lines 101-110): look up both accounts, fail with
`AccountNotFound` if either is absent, otherwise withdraw from the source
then deposit into the destination.  The destination is re-read after the
source update, which is exactly Python's object aliasing: when the two ids
coincide the deposit sees the withdrawn balance.  An error propagates and
leaves the bank unchanged (the caller keeps its `Bank`); the inner `none`
branch is unreachable since `updateAcc` preserves keys. -/
def Bank.transfer_funds (b : Bank) (now : ℚ) (fromId toId : String) (amount : ℚ) :
    Except BankError Bank :=
  match b.get_account fromId, b.get_account toId with
  | some from_account, some _ =>
      match withdraw now from_account amount with
      | .error e => .error e
      | .ok fromUpd =>
          match lookupAcc (updateAcc b.accounts fromId fromUpd) toId with
          | some to_account =>
              match deposit to_account amount with
              | .error e => .error e
              | .ok toUpd => .ok ⟨updateAcc (updateAcc b.accounts fromId fromUpd) toId toUpd⟩
          | none => .error .AccountNotFound
  | _, _ => .error .AccountNotFound

/-- Repeated `add_account` where the caller catches each `ValueError` and
continues: a failed add leaves the bank as it was. -/
def addAll (b : Bank) (l : List BankAccount) : Bank :=
  l.foldl (fun bk a =>
    match bk.add_account a with
    | .ok b2 => b2
    | .error _ => bk) b

/-! ## Helper lemmas -/

/-- A successful `withdrawBasic` subtracts the amount, preserves the other
fields, and implies the amount was positive. -/
theorem withdrawBasic_ok {a a2 : BankAccount} {amount : ℚ}
    (h : withdrawBasic a amount = .ok a2) :
    a2 = { a with balance := a.balance - amount } ∧ 0 < amount := by
  unfold withdrawBasic at h
  split at h
  · exact absurd h (by simp)
  · split at h
    · exact absurd h (by simp)
    · exact ⟨by injection h with h2; exact h2.symm, by linarith [not_le.mp (by assumption)]⟩

/-- A successful `withdraw` of any variant subtracts the amount, preserves
the other fields, and implies the amount was positive. -/
theorem withdraw_ok {now : ℚ} {a a2 : BankAccount} {amount : ℚ}
    (h : withdraw now a amount = .ok a2) :
    a2 = { a with balance := a.balance - amount } ∧ 0 < amount := by
  unfold withdraw at h
  split at h
  · exact withdrawBasic_ok h
  · exact withdrawBasic_ok h
  · split at h
    · exact absurd h (by simp)
    · split at h
      · exact absurd h (by simp)
      · exact ⟨by injection h with h2; exact h2.symm,
          by linarith [not_le.mp (by assumption)]⟩
  · split at h
    · exact absurd h (by simp)
    · exact withdrawBasic_ok h

/-- `deposit` of a positive amount always succeeds and adds the amount. -/
theorem deposit_pos {a : BankAccount} {amount : ℚ} (h : 0 < amount) :
    deposit a amount = .ok { a with balance := a.balance + amount } := by
  unfold deposit
  rw [if_neg (not_le.mpr h)]

/-- Looking up the updated key: the stored account is replaced. -/
theorem lookup_update_self (l : List (String × BankAccount)) (id : String) (a : BankAccount) :
    lookupAcc (updateAcc l id a) id = (lookupAcc l id).map (fun _ => a) := by
  induction l with
  | nil => rfl
  | cons p rest ih =>
      obtain ⟨k, v⟩ := p
      by_cases hk : k = id
      · simp [updateAcc, lookupAcc, hk]
      · simp [updateAcc, lookupAcc, hk, ih]

/-- Looking up a different key is unaffected by an update. -/
theorem lookup_update_other (l : List (String × BankAccount)) (id id2 : String)
    (a : BankAccount) (h : id2 ≠ id) :
    lookupAcc (updateAcc l id a) id2 = lookupAcc l id2 := by
  induction l with
  | nil => rfl
  | cons p rest ih =>
      obtain ⟨k, v⟩ := p
      unfold updateAcc
      by_cases hk : k = id
      · rw [if_pos hk]
        have hne : k ≠ id2 := by intro hc; exact h (by rw [← hc]; exact hk)
        simp only [lookupAcc, if_neg hne]
        exact ih
      · rw [if_neg hk]
        simp only [lookupAcc]
        by_cases hk2 : k = id2
        · rw [if_pos hk2, if_pos hk2]
        · rw [if_neg hk2, if_neg hk2]
          exact ih

/-- A key is absent from an association list iff lookup misses. -/
theorem lookup_eq_none_iff (l : List (String × BankAccount)) (id : String) :
    lookupAcc l id = none ↔ id ∉ l.map Prod.fst := by
  induction l with
  | nil => simp [lookupAcc]
  | cons p rest ih =>
      obtain ⟨k, v⟩ := p
      simp only [lookupAcc, List.map_cons, List.mem_cons, not_or]
      by_cases hk : k = id
      · simp [hk]
      · simp only [if_neg hk, ih]
        constructor
        · intro hn
          exact ⟨fun hc => hk hc.symm, hn⟩
        · intro hn
          exact hn.2

/-- Any sequence of caught `add_account` calls preserves uniqueness of the
registered account numbers. -/
theorem addAll_nodup (l : List BankAccount) (b : Bank)
    (h : (b.accounts.map Prod.fst).Nodup) :
    ((addAll b l).accounts.map Prod.fst).Nodup := by
  induction l generalizing b with
  | nil => exact h
  | cons a rest ih =>
      have hstep : addAll b (a :: rest) =
          addAll (match b.add_account a with | .ok b2 => b2 | .error _ => b) rest := rfl
      rw [hstep]
      apply ih
      cases hl : b.get_account a.account_number with
      | some x =>
          simp only [Bank.add_account, hl]
          exact h
      | none =>
          simp only [Bank.add_account, hl, List.map_append, List.map_cons, List.map_nil]
          rw [List.nodup_append]
          refine ⟨h, List.nodup_singleton _, ?_⟩
          intro x hx hmem
          rw [List.mem_singleton] at hmem
          subst hmem
          exact ((lookup_eq_none_iff b.accounts a.account_number).mp hl) hx

/-! ## Claim theorems -/

/-- C2: a fixed-deposit withdrawal strictly before `creation_date +
lock_period_days` fails with `LockPeriodActive` whatever the amount and
balance; at or after that instant it behaves exactly as the basic rule
(`InvalidAmount` for amount ≤ 0, `InsufficientFunds` for amount > balance,
otherwise the balance decreases by the amount). -/
theorem fixedDeposit_withdraw_spec (now lock created amount : ℚ) (a : BankAccount)
    (hk : a.kind = .fixedDeposit lock created) :
    (now < created + lock →
      withdraw now a amount = .error .LockPeriodActive) ∧
    (created + lock ≤ now →
      withdraw now a amount =
        (if amount ≤ 0 then .error .InvalidAmount
         else if amount > a.balance then .error .InsufficientFunds
         else .ok { a with balance := a.balance - amount })) := by
  have hw : withdraw now a amount =
      (if now < created + lock then .error .LockPeriodActive
       else withdrawBasic a amount) := by
    unfold withdraw
    rw [hk]
  rw [hw]
  constructor
  · intro h
    rw [if_pos h]
  · intro h
    rw [if_neg (not_lt.mpr h)]
    rfl

/-- C2 witness: a fixed deposit locked for 30 days, balance 5000: a 1000
withdrawal at day 0 fails with `LockPeriodActive`; at day 31 it succeeds
and the balance drops to 4000. -/
theorem fixedDeposit_withdraw_spec_witness :
    withdraw 0 ⟨"F1001", "Charlie", 5000, .fixedDeposit 30 0⟩ 1000 =
      .error .LockPeriodActive ∧
    withdraw 31 ⟨"F1001", "Charlie", 5000, .fixedDeposit 30 0⟩ 1000 =
      .ok ⟨"F1001", "Charlie", 4000, .fixedDeposit 30 0⟩ := by
  constructor
  · exact (fixedDeposit_withdraw_spec 0 30 0 1000 _ rfl).1 (by norm_num)
  · have h := (fixedDeposit_withdraw_spec 31 30 0 1000
      ⟨"F1001", "Charlie", 5000, .fixedDeposit 30 0⟩ rfl).2 (by norm_num)
    rw [h]
    norm_num

/-- C3 counterexample: a current account with balance 200 and overdraft
limit 500, withdrawing amount 0: the claim's premise `amount ≤ balance +
overdraftLimit` holds, yet the withdrawal does not succeed — it fails with
`InvalidAmount` — so the claim as stated is false. -/
theorem current_withdraw_claim_cex :
    (0 : ℚ) ≤ (⟨"C1001", "Bob", 200, .current 500⟩ : BankAccount).balance + 500 ∧
    withdraw 0 ⟨"C1001", "Bob", 200, .current 500⟩ 0 = .error .InvalidAmount := by
  constructor
  · norm_num
  · rfl

/-- C3 amended: for a current account, a withdrawal of a non-positive
amount fails with `InvalidAmount` (on failure no updated account is
produced, so the balance is unchanged); a POSITIVE amount with
amount ≤ balance + overdraft_limit succeeds and decreases the balance by
the amount (possibly below zero, down to -overdraft_limit); a positive
amount with amount > balance + overdraft_limit fails with
`OverdraftExceeded`. -/
theorem current_withdraw_spec (now : ℚ) (a : BankAccount) (od amount : ℚ)
    (hk : a.kind = .current od) :
    (amount ≤ 0 → withdraw now a amount = .error .InvalidAmount) ∧
    (0 < amount → amount ≤ a.balance + od →
      withdraw now a amount = .ok { a with balance := a.balance - amount }) ∧
    (0 < amount → a.balance + od < amount →
      withdraw now a amount = .error .OverdraftExceeded) := by
  have hw : withdraw now a amount =
      (if amount ≤ 0 then .error .InvalidAmount
       else if amount > a.balance + od then .error .OverdraftExceeded
       else .ok { a with balance := a.balance - amount }) := by
    unfold withdraw
    rw [hk]
  rw [hw]
  refine ⟨?_, ?_, ?_⟩
  · intro h
    rw [if_pos h]
  · intro hpos h
    rw [if_neg (not_le.mpr hpos), if_neg (not_lt.mpr h)]
  · intro hpos h
    rw [if_neg (not_le.mpr hpos), if_pos h]

/-- C3 amended witness: current account, balance 200, overdraft 500:
withdrawing -10 fails with `InvalidAmount`; withdrawing 600 succeeds
leaving balance -400; withdrawing 800 fails with `OverdraftExceeded`. -/
theorem current_withdraw_spec_witness :
    withdraw 0 ⟨"C1001", "Bob", 200, .current 500⟩ (-10) =
      .error .InvalidAmount ∧
    withdraw 0 ⟨"C1001", "Bob", 200, .current 500⟩ 600 =
      .ok ⟨"C1001", "Bob", -400, .current 500⟩ ∧
    withdraw 0 ⟨"C1001", "Bob", 200, .current 500⟩ 800 =
      .error .OverdraftExceeded := by
  refine ⟨?_, ?_, ?_⟩
  · exact (current_withdraw_spec 0 ⟨"C1001", "Bob", 200, .current 500⟩ 500 (-10)
      rfl).1 (by norm_num)
  · have h := ((current_withdraw_spec 0 ⟨"C1001", "Bob", 200, .current 500⟩ 500 600
      rfl).2).1 (by norm_num) (by norm_num)
    rw [h]
    norm_num
  · exact ((current_withdraw_spec 0 ⟨"C1001", "Bob", 200, .current 500⟩ 500 800
      rfl).2).2 (by norm_num) (by norm_num)

/-- C4: for every account of any variant, a deposit of a non-positive
amount fails with `InvalidAmount` (leaving the balance unchanged — on
failure no updated account is produced), and a deposit of a positive
amount succeeds with new balance = old balance + amount, exactly (the
model uses exact rational arithmetic). -/
theorem deposit_spec (a : BankAccount) (amount : ℚ) :
    (amount ≤ 0 → deposit a amount = .error .InvalidAmount) ∧
    (0 < amount → deposit a amount = .ok { a with balance := a.balance + amount }) := by
  unfold deposit
  constructor
  · intro h
    rw [if_pos h]
  · intro h
    rw [if_neg (not_le.mpr h)]

/-- C4 witness: on a savings account with balance 1000, depositing -5
fails with `InvalidAmount` and depositing 500 yields balance 1500. -/
theorem deposit_spec_witness :
    deposit ⟨"S1001", "Alice", 1000, .savings (7/2)⟩ (-5) = .error .InvalidAmount ∧
    deposit ⟨"S1001", "Alice", 1000, .savings (7/2)⟩ 500 =
      .ok ⟨"S1001", "Alice", 1500, .savings (7/2)⟩ := by
  constructor
  · exact (deposit_spec ⟨"S1001", "Alice", 1000, .savings (7/2)⟩ (-5)).1 (by norm_num)
  · have h := (deposit_spec ⟨"S1001", "Alice", 1000, .savings (7/2)⟩ 500).2 (by norm_num)
    rw [h]
    norm_num

/-- C5: for a basic or savings account (whose balance is non-negative, the
spec's invariant for these variants), withdrawing more than the balance
fails with `InsufficientFunds`, and withdrawing an amount with
0 < amount ≤ balance succeeds, decreasing the balance by exactly that
amount. -/
theorem basic_savings_withdraw_spec (now : ℚ) (a : BankAccount) (amount : ℚ)
    (hkind : a.kind = .basic ∨ ∃ r, a.kind = .savings r)
    (hbal : 0 ≤ a.balance) :
    (a.balance < amount → withdraw now a amount = .error .InsufficientFunds) ∧
    (0 < amount → amount ≤ a.balance →
      withdraw now a amount = .ok { a with balance := a.balance - amount }) := by
  have hw : withdraw now a amount = withdrawBasic a amount := by
    unfold withdraw
    rcases hkind with h | ⟨r, h⟩ <;> rw [h]
  rw [hw]
  unfold withdrawBasic
  constructor
  · intro h
    rw [if_neg (not_le.mpr (lt_of_le_of_lt hbal h)), if_pos h]
  · intro h1 h2
    rw [if_neg (not_le.mpr h1), if_neg (not_lt.mpr h2)]

/-- C5 witness: savings account at 1352.5: withdrawing 2000 fails with
`InsufficientFunds`; withdrawing 200 leaves 1152.5. -/
theorem basic_savings_withdraw_spec_witness :
    withdraw 0 ⟨"S1001", "Alice", 2705/2, .savings (7/2)⟩ 2000 =
      .error .InsufficientFunds ∧
    withdraw 0 ⟨"S1001", "Alice", 2705/2, .savings (7/2)⟩ 200 =
      .ok ⟨"S1001", "Alice", 2305/2, .savings (7/2)⟩ := by
  constructor
  · exact (basic_savings_withdraw_spec 0 ⟨"S1001", "Alice", 2705/2, .savings (7/2)⟩ 2000
      (Or.inr ⟨7/2, rfl⟩) (by norm_num)).1 (by norm_num)
  · have h := (basic_savings_withdraw_spec 0 ⟨"S1001", "Alice", 2705/2, .savings (7/2)⟩ 200
      (Or.inr ⟨7/2, rfl⟩) (by norm_num)).2 (by norm_num) (by norm_num)
    rw [h]
    norm_num

/-- C8: applying interest to a savings account never fails (it is a total
operation) and adds exactly (pre-interest balance) * rate / 100, leaving
the balance equal to the pre-interest balance times (1 + rate/100). -/
theorem apply_interest_spec (a : BankAccount) (r : ℚ) (hk : a.kind = .savings r) :
    (apply_interest a).balance = a.balance + a.balance * (r / 100) ∧
    (apply_interest a).balance = a.balance * (1 + r / 100) := by
  have h : apply_interest a = { a with balance := a.balance + a.balance * (r / 100) } := by
    unfold apply_interest
    rw [hk]
  rw [h]
  exact ⟨rfl, by ring⟩

/-- C8 witness: savings balance 1500 at rate 3.5%: interest 52.5, new
balance 1552.5. -/
theorem apply_interest_spec_witness :
    (apply_interest ⟨"S1001", "Alice", 1500, .savings (7/2)⟩).balance = 3105/2 := by
  have h := (apply_interest_spec ⟨"S1001", "Alice", 1500, .savings (7/2)⟩ (7/2) rfl).1
  rw [h]
  norm_num

/-- C6: a transfer in which either account number is unregistered fails
with `AccountNotFound`; no account is mutated (on error the function
returns no bank, so the caller's registry is exactly as before). -/
theorem transfer_funds_not_found (b : Bank) (now : ℚ) (fromId toId : String) (amount : ℚ)
    (h : b.get_account fromId = none ∨ b.get_account toId = none) :
    b.transfer_funds now fromId toId amount = .error .AccountNotFound := by
  unfold Bank.transfer_funds
  rcases h with h | h
  · rw [h]
  · rw [h]
    cases b.get_account fromId <;> rfl

/-- C6 witness: a transfer on the empty bank fails with `AccountNotFound`. -/
theorem transfer_funds_not_found_witness :
    Bank.empty.transfer_funds 0 "S1001" "C1001" 300 = .error .AccountNotFound :=
  transfer_funds_not_found Bank.empty 0 "S1001" "C1001" 300 (Or.inl rfl)

/-- C7: adding an account whose number is already registered fails with
`DuplicateAccount` (the error branch returns no bank, so the existing entry
is not replaced), and after any sequence of caught `add_account` calls
starting from the empty bank the registered account numbers are pairwise
distinct. -/
theorem add_account_spec (b : Bank) (a a0 : BankAccount) (l : List BankAccount)
    (h : b.get_account a.account_number = some a0) :
    b.add_account a = .error .DuplicateAccount ∧
    ((addAll Bank.empty l).accounts.map Prod.fst).Nodup := by
  constructor
  · unfold Bank.add_account
    rw [h]
  · exact addAll_nodup l Bank.empty List.nodup_nil

/-- C7 witness: re-adding "S1001" to a bank already holding it fails with
`DuplicateAccount`, and building a bank from a list that repeats "S1001"
still yields pairwise-distinct registered numbers. -/
theorem add_account_spec_witness :
    (Bank.mk [("S1001", ⟨"S1001", "Alice", 1000, .savings (7/2)⟩)]).add_account
      ⟨"S1001", "Mallory", 0, .basic⟩ = .error .DuplicateAccount ∧
    ((addAll Bank.empty [⟨"S1001", "Alice", 1000, .savings (7/2)⟩,
        ⟨"C1001", "Bob", 200, .current 500⟩,
        ⟨"S1001", "Mallory", 0, .basic⟩]).accounts.map Prod.fst).Nodup :=
  add_account_spec (Bank.mk [("S1001", ⟨"S1001", "Alice", 1000, .savings (7/2)⟩)])
    ⟨"S1001", "Mallory", 0, .basic⟩ ⟨"S1001", "Alice", 1000, .savings (7/2)⟩
    [⟨"S1001", "Alice", 1000, .savings (7/2)⟩,
     ⟨"C1001", "Bob", 200, .current 500⟩,
     ⟨"S1001", "Mallory", 0, .basic⟩] rfl

/-- C1: for two DISTINCT registered account numbers, if the source
account's own withdraw rule accepts the amount then the transfer succeeds,
the source balance decreases by exactly the amount, the destination
balance increases by exactly the amount, and the sum of the two balances
is conserved. -/
theorem transfer_funds_spec (b : Bank) (now : ℚ) (fromId toId : String) (amount : ℚ)
    (A B A2 : BankAccount)
    (hne : fromId ≠ toId)
    (hA : b.get_account fromId = some A)
    (hB : b.get_account toId = some B)
    (hw : withdraw now A amount = .ok A2) :
    ∃ b2 A3 B3,
      b.transfer_funds now fromId toId amount = .ok b2 ∧
      b2.get_account fromId = some A3 ∧
      b2.get_account toId = some B3 ∧
      A3.balance = A.balance - amount ∧
      B3.balance = B.balance + amount ∧
      A3.balance + B3.balance = A.balance + B.balance := by
  obtain ⟨hA2, hpos⟩ := withdraw_ok hw
  subst hA2
  have hA' : lookupAcc b.accounts fromId = some A := hA
  have hB' : lookupAcc b.accounts toId = some B := hB
  have hb1to : lookupAcc (updateAcc b.accounts fromId
      { A with balance := A.balance - amount }) toId = some B := by
    rw [lookup_update_other _ _ _ _ (fun hc => hne hc.symm)]
    exact hB'
  have hdep := deposit_pos (a := B) hpos
  refine ⟨⟨updateAcc (updateAcc b.accounts fromId { A with balance := A.balance - amount })
      toId { B with balance := B.balance + amount }⟩,
    { A with balance := A.balance - amount },
    { B with balance := B.balance + amount }, ?_, ?_, ?_, rfl, rfl, by ring⟩
  · simp only [Bank.transfer_funds, Bank.get_account, hA', hB', hw, hb1to, hdep]
  · show lookupAcc (updateAcc (updateAcc b.accounts fromId
        { A with balance := A.balance - amount }) toId
        { B with balance := B.balance + amount }) fromId = _
    rw [lookup_update_other _ _ _ _ hne, lookup_update_self, hA']
    rfl
  · show lookupAcc (updateAcc (updateAcc b.accounts fromId
        { A with balance := A.balance - amount }) toId
        { B with balance := B.balance + amount }) toId = _
    rw [lookup_update_self, hb1to]
    rfl

/-- C1 witness: savings "S1001" at 1352.5 and current "C1001" at -100;
transferring 300 succeeds, leaving 1052.5 and 200 with the pair sum
conserved (the spec's worked example). -/
theorem transfer_funds_spec_witness :
    ∃ b2 A3 B3,
      (Bank.mk [("S1001", ⟨"S1001", "Alice", 2705/2, .savings (7/2)⟩),
        ("C1001", ⟨"C1001", "Bob", -100, .current 500⟩)]).transfer_funds
          0 "S1001" "C1001" 300 = .ok b2 ∧
      b2.get_account "S1001" = some A3 ∧
      b2.get_account "C1001" = some B3 ∧
      A3.balance = (2705/2 : ℚ) - 300 ∧
      B3.balance = (-100 : ℚ) + 300 ∧
      A3.balance + B3.balance = (2705/2 : ℚ) + (-100) :=
  transfer_funds_spec _ 0 "S1001" "C1001" 300
    ⟨"S1001", "Alice", 2705/2, .savings (7/2)⟩
    ⟨"C1001", "Bob", -100, .current 500⟩
    ⟨"S1001", "Alice", 2705/2 - 300, .savings (7/2)⟩
    (by decide) rfl rfl (by norm_num [withdraw, withdrawBasic])

/-- C9: whenever the source account's withdraw succeeds, the destination
deposit cannot fail — deposit's only failure mode needs amount ≤ 0, which
a successful withdraw excludes — so for any registered pair the transfer
completes and no funds are lost to the missing rollback. -/
theorem transfer_no_rollback_gap (b : Bank) (now : ℚ) (fromId toId : String)
    (amount : ℚ) (A A2 B : BankAccount)
    (hA : b.get_account fromId = some A)
    (hB : b.get_account toId = some B)
    (hw : withdraw now A amount = .ok A2) :
    (∀ c : BankAccount, ∃ c2, deposit c amount = .ok c2) ∧
    ∃ b2, b.transfer_funds now fromId toId amount = .ok b2 := by
  obtain ⟨hA2, hpos⟩ := withdraw_ok hw
  subst hA2
  have hA' : lookupAcc b.accounts fromId = some A := hA
  have hB' : lookupAcc b.accounts toId = some B := hB
  refine ⟨fun c => ⟨_, deposit_pos hpos⟩, ?_⟩
  by_cases hid : toId = fromId
  · subst hid
    have hAB : B = A := Option.some.inj (hB'.symm.trans hA')
    subst hAB
    have hb1to : lookupAcc (updateAcc b.accounts toId
        { B with balance := B.balance - amount }) toId =
        some { B with balance := B.balance - amount } := by
      rw [lookup_update_self, hB']
      rfl
    have hdep := deposit_pos (a := { B with balance := B.balance - amount }) hpos
    have htrans : b.transfer_funds now toId toId amount = .ok
        ⟨updateAcc (updateAcc b.accounts toId { B with balance := B.balance - amount }) toId
          { B with balance := B.balance - amount + amount }⟩ := by
      simp only [Bank.transfer_funds, Bank.get_account, hB', hw, hb1to, hdep]
    exact ⟨_, htrans⟩
  · have hb1to : lookupAcc (updateAcc b.accounts fromId
        { A with balance := A.balance - amount }) toId = some B := by
      rw [lookup_update_other _ _ _ _ hid]
      exact hB'
    have hdep := deposit_pos (a := B) hpos
    have htrans : b.transfer_funds now fromId toId amount = .ok
        ⟨updateAcc (updateAcc b.accounts fromId { A with balance := A.balance - amount }) toId
          { B with balance := B.balance + amount }⟩ := by
      simp only [Bank.transfer_funds, Bank.get_account, hA', hB', hw, hb1to, hdep]
    exact ⟨_, htrans⟩

/-- C9 witness: with savings "S1001" at 1352.5 and current "C1001" at
-100 registered, the withdraw of 300 succeeds and the transfer completes. -/
theorem transfer_no_rollback_gap_witness :
    (∀ c : BankAccount, ∃ c2, deposit c 300 = .ok c2) ∧
    ∃ b2, (Bank.mk [("S1001", ⟨"S1001", "Alice", 2705/2, .savings (7/2)⟩),
      ("C1001", ⟨"C1001", "Bob", -100, .current 500⟩)]).transfer_funds
        0 "S1001" "C1001" 300 = .ok b2 :=
  transfer_no_rollback_gap _ 0 "S1001" "C1001" 300
    ⟨"S1001", "Alice", 2705/2, .savings (7/2)⟩
    ⟨"S1001", "Alice", 2705/2 - 300, .savings (7/2)⟩
    ⟨"C1001", "Bob", -100, .current 500⟩
    rfl rfl (by norm_num [withdraw, withdrawBasic])

/-- C10: a self-transfer (same account number on both sides) whose amount
the account's withdraw rule accepts succeeds and leaves that account's
balance exactly unchanged: the deposit lands on the same, already
withdrawn, account object. -/
theorem self_transfer_spec (b : Bank) (now : ℚ) (id : String) (amount : ℚ)
    (A A2 : BankAccount)
    (hA : b.get_account id = some A)
    (hw : withdraw now A amount = .ok A2) :
    ∃ b2 A3,
      b.transfer_funds now id id amount = .ok b2 ∧
      b2.get_account id = some A3 ∧
      A3.balance = A.balance := by
  obtain ⟨hA2, hpos⟩ := withdraw_ok hw
  subst hA2
  have hA' : lookupAcc b.accounts id = some A := hA
  have hb1 : lookupAcc (updateAcc b.accounts id
      { A with balance := A.balance - amount }) id =
      some { A with balance := A.balance - amount } := by
    rw [lookup_update_self, hA']
    rfl
  have hdep := deposit_pos (a := { A with balance := A.balance - amount }) hpos
  refine ⟨⟨updateAcc (updateAcc b.accounts id { A with balance := A.balance - amount }) id
      { A with balance := A.balance - amount + amount }⟩,
    { A with balance := A.balance - amount + amount }, ?_, ?_, ?_⟩
  · simp only [Bank.transfer_funds, Bank.get_account, hA', hw, hb1, hdep]
  · show lookupAcc (updateAcc (updateAcc b.accounts id
        { A with balance := A.balance - amount }) id
        { A with balance := A.balance - amount + amount }) id = _
    rw [lookup_update_self, hb1]
    rfl
  · show A.balance - amount + amount = A.balance
    ring

/-- C10 witness: transferring 600 from current "C1001" (balance 200,
overdraft 500) to itself succeeds and leaves the balance at 200. -/
theorem self_transfer_spec_witness :
    ∃ b2 A3,
      (Bank.mk [("C1001", ⟨"C1001", "Bob", 200, .current 500⟩)]).transfer_funds
        0 "C1001" "C1001" 600 = .ok b2 ∧
      b2.get_account "C1001" = some A3 ∧
      A3.balance = (⟨"C1001", "Bob", 200, .current 500⟩ : BankAccount).balance :=
  self_transfer_spec _ 0 "C1001" 600
    ⟨"C1001", "Bob", 200, .current 500⟩
    ⟨"C1001", "Bob", -400, .current 500⟩
    rfl (by norm_num [withdraw])

end OOP1
